import Mathlib

/-!
Shallow embedding of `src/packages/relay-runtime/network/RelayNetwork.js`,
the default Relay network layer: one-shot requests, observed streams and
interval polling built around a caller supplied fetch primitive, funneled
through a single payload normalization step and a handle based cancellation
mechanism.

Conventions used to translate the JavaScript:
* a nullable value (Flow `?T`) is an `Option`;
* a thrown JS exception is the `.error` case of an `Except`;
* a promise is modelled by its eventual settlement, `Option (Except e a)`,
  where `none` stands for a promise that never settles;
* callbacks fired on the caller supplied observer are recorded as a trace,
  a `List` of `CB` events, and the observer may request disposal from
  inside a callback (`ObserverBehavior`);
* external collaborators that are not under `src/` (the normalizer
  `normalizeRelayPayload`, the fetch and subscribe primitives) are
  parameters of the embedding.
-/

deriving instance DecidableEq for Except

namespace RelayNet

/-- A single server reported GraphQL error object; only its `message` field
is consumed by this module. -/
structure ErrObj where
  message : String
deriving DecidableEq, Repr

/-- Raw payload returned by the fetch primitive (`QueryPayload`): a `data`
field that may be absent (`none` models both null and undefined) and an
optional list of server reported errors. -/
structure QueryPayload (D : Type) where
  data : Option D
  errors : Option (List ErrObj)
deriving DecidableEq, Repr

/-- The part of `operation.query` this module reads: the GraphQL kind tag
`operation.query.operation`. -/
structure QueryNode where
  operation : String
deriving DecidableEq, Repr

/-- A `ConcreteBatch` operation, restricted to the fields this module
reads: `operation.name` and `operation.query`. -/
structure Operation where
  name : String
  query : QueryNode
deriving DecidableEq, Repr

/-- `CacheConfig` with the optional fields this module reads or builds. -/
structure CacheConfig where
  force : Option Bool
  poll : Option Int
  liveConfigId : Option String
deriving DecidableEq, Repr

/-- `RelayStoreUtils.ROOT_ID`, an external constant; its value is
irrelevant to every claim, it is only threaded to the external
normalizer. -/
def ROOT_ID : String := "client:root"

/-- The selector record built inside `normalizePayload` and passed as the
first argument of the external `normalizeRelayPayload`. -/
structure NormalizeSelector (V : Type) where
  dataID : String
  node : QueryNode
  vars : V
deriving DecidableEq, Repr

/-- The options record passed to the external `normalizeRelayPayload`. -/
structure NormalizeOptions where
  handleStrippedNulls : Bool
deriving DecidableEq, Repr

/-- The `source` record attached to the synthesized missing-data error:
the raw server errors, the operation and the variables. -/
structure Source (V : Type) where
  errors : Option (List ErrObj)
  operation : Operation
  vars : V
deriving DecidableEq, Repr

/-- A JS `Error` object as far as this module observes it: a `name` and a
`message` string. -/
structure RelayErrorObj where
  name : String
  message : String
deriving DecidableEq, Repr

/-- Replace each `%s` of the format character list by the next argument:
the sprintf subset used by the external `RelayError.create` and
`invariant` helpers. -/
def substPercentS : List Char → List String → List Char
  | [], _ => []
  | '%' :: 's' :: rest, arg :: args => arg.toList ++ substPercentS rest args
  | '%' :: 's' :: rest, [] => '%' :: 's' :: substPercentS rest []
  | c :: rest, args => c :: substPercentS rest args

/-- Modelled from the spec: the `RelayError` module is not under `src/`.
Per the spec the synthesized error carries a human readable message; the
module builds it printf style, so `RelayError.create` is modelled as an
error object whose message is the format string with each `%s` replaced by
the next argument. -/
def RelayError.create (name format : String) (args : List String) : RelayErrorObj :=
  ⟨name, String.mk (substPercentS format.toList args)⟩

/-- Modelled from the spec: the `invariant` module is not under `src/`.
A failed invariant throws an error carrying the formatted message. -/
def invariantMessage (format : String) (args : List String) : String :=
  String.mk (substPercentS format.toList args)

/-- The failure channel of the module: an error produced by the fetch
primitive or the external normalizer (`ext`), the synthesized missing-data
error with its attached `source`, a failed `invariant` (configuration
errors and the defensive unreachable-variant check), or the JS `TypeError`
raised when `normalizePayload` destructures a null payload. -/
inductive NetErr (E V : Type) where
  | ext (e : E)
  | missingData (err : RelayErrorObj) (source : Source V)
  | invariant (message : String)
  | typeError
deriving DecidableEq, Repr

/-- `SyncOrPromise`: the tagged result of one fetch attempt.  `unknown`
stands for any response object whose `kind` tag is none of the three
defined ones (what the defensive default branches of the source guard
against). -/
inductive SyncOrPromise (E V α : Type) where
  | data (d : Option α)
  | error (e : NetErr E V)
  | promise (p : Option (Except (NetErr E V) α))
  | unknown (kind : String)
deriving DecidableEq, Repr

/-- Type of the external `normalizeRelayPayload` collaborator: selector,
raw data, optional raw errors, options; it may fail. -/
abbrev Normalizer (D N E V : Type) :=
  NormalizeSelector V → D → Option (List ErrObj) → NormalizeOptions → Except E N

section Model

variable {D N E V : Type}

/-- The joined server error messages, or the sentinel when the errors list
is absent (source line 251). -/
def errorListMessage (errors : Option (List ErrObj)) : String :=
  match errors with
  | some es => String.intercalate "\n" (es.map ErrObj.message)
  | none => "(No errors)"

/-- The format string of the synthesized missing-data error
(source lines 248 to 250). -/
def missingDataFormat : String :=
  "No data returned for operation `%s`, got error(s):\n%s\n\nSee the error `source` property for more information."

/-- The synthesized missing-data error object (source lines 246 to 252). -/
def missingDataError (operation : Operation) (errors : Option (List ErrObj)) : RelayErrorObj :=
  RelayError.create "RelayNetwork" missingDataFormat
    [operation.name, errorListMessage errors]

/-- `normalizePayload` (source lines 228 to 255): when the payload carries
a non-null `data` field, delegate to the external `normalizeRelayPayload`
(the parameter `nrp`); otherwise synthesize the missing-data error, attach
the record of raw errors, operation and variables as its `source`, and
throw it. -/
def normalizePayload (nrp : Normalizer D N E V) (operation : Operation) (vars : V)
    (payload : QueryPayload D) : Except (NetErr E V) N :=
  match payload.data with
  | some d =>
      match nrp ⟨ROOT_ID, operation.query, vars⟩ d payload.errors ⟨true⟩ with
      | .ok v => .ok v
      | .error e => .error (.ext e)
  | none =>
      .error (.missingData (missingDataError operation payload.errors)
        ⟨payload.errors, operation, vars⟩)

/-- `normalizePayload` as invoked from the one-shot stream path, where the
argument may be null (`Promise.resolve(requestResponse.data)` resolves
with a nullable payload): destructuring a null payload raises a JS
`TypeError`. -/
def normalizePayloadNullable (nrp : Normalizer D N E V) (operation : Operation) (vars : V) :
    Option (QueryPayload D) → Except (NetErr E V) N
  | some payload => normalizePayload nrp operation vars payload
  | none => .error .typeError

/-- The response dispatch of `request` (source lines 51 to 71), factored
over the already fetched response.  JS notes: a `QueryPayload` object is
truthy, so `(response.data && onSuccess(response.data)) || null`
normalizes exactly when `response.data` is non-null, and a normalized
record is itself a non-null object, so the trailing `|| null` never
replaces it. -/
def requestResponse (nrp : Normalizer D N E V) (operation : Operation) (vars : V) :
    SyncOrPromise E V (QueryPayload D) → Except (NetErr E V) (SyncOrPromise E V N)
  | .promise p =>
      .ok (.promise (p.map (fun settled =>
        settled.bind (normalizePayload nrp operation vars))))
  | .data none => .ok (.data none)
  | .data (some payload) =>
      match normalizePayload nrp operation vars payload with
      | .ok v => .ok (.data (some v))
      | .error e => .error e
  | .error e => .ok (.error e)
  | .unknown kind =>
      .error (.invariant (invariantMessage
        "RelayNetwork: unsupported response kind `%s`" [kind]))

/-- `request` (source lines 42 to 72): call the fetch primitive with the
given cache configuration, then dispatch on the response kind.  The unused
`uploadables` argument is omitted. -/
def request (nrp : Normalizer D N E V)
    (fetch : Option CacheConfig → SyncOrPromise E V (QueryPayload D))
    (operation : Operation) (vars : V) (cacheConfig : Option CacheConfig) :
    Except (NetErr E V) (SyncOrPromise E V N) :=
  requestResponse nrp operation vars (fetch cacheConfig)

/-- Trace event: one observer callback invocation.  `next` carries the JS
argument; it is null (`none`) only on the polling path, when `request`
produced a null `data` payload. -/
inductive CB (N E V : Type) where
  | next (payload : Option N)
  | error (e : NetErr E V)
  | completed
deriving DecidableEq, Repr

/-- Behaviour of the caller supplied observer: whether each callback, when
invoked, calls `dispose()` on the handle from inside itself.  An absent
callback (the `cb && cb(x)` pattern) behaves like a present callback that
does nothing, so it is modelled as one that never disposes. -/
structure ObserverBehavior (N E V : Type) where
  nextDisposes : Option N → Bool
  errorDisposes : NetErr E V → Bool
  completedDisposes : Bool

/-- `onRequestSuccess` of the one-shot stream path (source lines 114 to
127): given the `isDisposed` flag at the moment the wrapped promise
settles, return the flag after delivery together with the callbacks fired.
The flag is read once, on entry; it is not re-read between `onNext` and
`onCompleted`. -/
def onRequestSuccess (nrp : Normalizer D N E V) (operation : Operation) (vars : V)
    (ob : ObserverBehavior N E V) (isDisposed : Bool) (payload : Option (QueryPayload D)) :
    Bool × List (CB N E V) :=
  if isDisposed then (isDisposed, [])
  else
    match normalizePayloadNullable nrp operation vars payload with
    | .error err => (ob.errorDisposes err, [.error err])
    | .ok relayPayload =>
        (ob.nextDisposes (some relayPayload) || ob.completedDisposes,
          [.next (some relayPayload), .completed])

/-- `onRequestError` of the one-shot stream path (source lines 129 to
134). -/
def onRequestError (ob : ObserverBehavior N E V) (isDisposed : Bool) (e : NetErr E V) :
    Bool × List (CB N E V) :=
  if isDisposed then (isDisposed, []) else (ob.errorDisposes e, [.error e])

/-- The continuation left pending by the one-shot branch of
`requestStream`. -/
inductive OneShotJob (D E V : Type) where
  | success (payload : Option (QueryPayload D))
  | failure (e : NetErr E V)
deriving DecidableEq, Repr

/-- Which continuation the one-shot switch (source lines 139 to 153)
leaves pending for a later asynchronous turn:
* `data`: `Promise.resolve(requestResponse.data).then(onRequestSuccess)`;
* `error`: `Promise.reject(requestResponse.error).then(onRequestError)`
  attaches `onRequestError` in the fulfillment slot of an already rejected
  promise, so no handler can ever run and no continuation is pending
  (the rejection stays unhandled);
* `promise`: `.then(onRequestSuccess, onRequestError)` fills both slots;
* any other kind: the switch has no default branch, nothing is attached. -/
def oneShotPending : SyncOrPromise E V (QueryPayload D) → Option (OneShotJob D E V)
  | .data d => some (.success d)
  | .error _ => none
  | .promise none => none
  | .promise (some (.ok payload)) => some (.success (some payload))
  | .promise (some (.error e)) => some (.failure e)
  | .unknown _ => none

/-- Run the pending one-shot continuation, if any, with the `isDisposed`
flag holding at the moment it runs. -/
def oneShotDeliver (nrp : Normalizer D N E V) (operation : Operation) (vars : V)
    (ob : ObserverBehavior N E V) (isDisposed : Bool) :
    Option (OneShotJob D E V) → Bool × List (CB N E V)
  | none => (isDisposed, [])
  | some (.success payload) => onRequestSuccess nrp operation vars ob isDisposed payload
  | some (.failure e) => onRequestError ob isDisposed e

/-- The cache configuration a poll tick passes to `request`: the object
literal at source line 189, carrying only `force: true`. -/
def pollCacheConfig : CacheConfig := ⟨some true, none, none⟩

/-- Poller state: the closed over `isDisposed` flag, whether a
`setTimeout` for the next tick is pending, and the in flight tick, if any,
recorded as the settlement its promise will eventually deliver
(`some none` is a tick whose promise never settles). -/
structure PollState (N E V : Type) where
  isDisposed : Bool
  timeoutScheduled : Bool
  inflight : Option (Option (Except (NetErr E V) (Option N)))
deriving DecidableEq, Repr

/-- `dispose` of the poller handle (source lines 182 to 187): idempotent;
`clearTimeout` cancels a pending timer, but an in flight promise keeps its
handlers attached. -/
def disposePoll (s : PollState N E V) : PollState N E V :=
  if s.isDisposed then s else ⟨true, false, s.inflight⟩

/-- The settlement the tick promise assembled by `poll` (source lines 202
to 215) will deliver, from the envelope `request` returned: a `data`
envelope becomes an immediately resolved promise, an `error` envelope an
immediately rejected one; an unrecognized kind leaves `promise` undefined
and `promise && promise.then(...)` attaches nothing. -/
def tickFuture : SyncOrPromise E V N → Option (Except (NetErr E V) (Option N))
  | .data d => some (.ok d)
  | .error e => some (.error e)
  | .promise none => none
  | .promise (some (.ok v)) => some (.ok (some v))
  | .promise (some (.error e)) => some (.error e)
  | .unknown _ => none

/-- Start of one poll tick (source lines 189 and 202 to 215): `request`
is called with the cache configuration holding only `force: true`; it may
throw synchronously, otherwise the tick is in flight with `tickFuture` of
the returned envelope. -/
def pollTickStart (nrp : Normalizer D N E V)
    (fetch : Option CacheConfig → SyncOrPromise E V (QueryPayload D))
    (operation : Operation) (vars : V) :
    Except (NetErr E V) (Option (Except (NetErr E V) (Option N))) :=
  (request nrp fetch operation vars (some pollCacheConfig)).map tickFuture

/-- Settlement handlers of a poll tick (source lines 190 to 198): on
success `onNext` fires and the next tick is scheduled, with no check of
the `isDisposed` flag; on failure `dispose()` runs first (a no-op when
already disposed) and then `onError` fires. -/
def pollOnSettle (ob : ObserverBehavior N E V) (s : PollState N E V) :
    Except (NetErr E V) (Option N) → PollState N E V × List (CB N E V)
  | .ok payload =>
      (⟨s.isDisposed || ob.nextDisposes payload, true, none⟩, [.next payload])
  | .error e =>
      let s1 : PollState N E V := disposePoll ⟨s.isDisposed, s.timeoutScheduled, none⟩
      (⟨s1.isDisposed || ob.errorDisposes e, s1.timeoutScheduled, none⟩, [.error e])

/-- External events driving one polling execution after
`doFetchWithPolling` has returned: the pending timer fires (running `poll`
with whatever the fetch primitive answers on that tick), the in flight
tick promise settles, or the caller invokes `dispose()`. -/
inductive PollEvent (D E V : Type) where
  | timerFire (fetch : Option CacheConfig → SyncOrPromise E V (QueryPayload D))
  | settle
  | disposeEvt

/-- One step of the polling state machine.  The third component is an
exception escaping the timer callback (`request` throwing inside a later
tick), which reaches no observer. -/
def pollStep (nrp : Normalizer D N E V) (operation : Operation) (vars : V)
    (ob : ObserverBehavior N E V) (s : PollState N E V) :
    PollEvent D E V → PollState N E V × List (CB N E V) × Option (NetErr E V)
  | .timerFire fetch =>
      if s.timeoutScheduled then
        match pollTickStart nrp fetch operation vars with
        | .ok fut => (⟨s.isDisposed, false, some fut⟩, [], none)
        | .error e => (⟨s.isDisposed, false, none⟩, [], some e)
      else (s, [], none)
  | .settle =>
      match s.inflight with
      | some (some r) =>
          let out := pollOnSettle ob ⟨s.isDisposed, s.timeoutScheduled, none⟩ r
          (out.1, out.2, none)
      | _ => (s, [], none)
  | .disposeEvt => (disposePoll s, [], none)

/-- Run a polling execution over a sequence of events, accumulating the
observer trace and the exceptions escaping timer callbacks. -/
def pollRun (nrp : Normalizer D N E V) (operation : Operation) (vars : V)
    (ob : ObserverBehavior N E V) :
    List (PollEvent D E V) → PollState N E V →
      PollState N E V × List (CB N E V) × List (NetErr E V)
  | [], s => (s, [], [])
  | ev :: evs, s =>
      let r1 := pollStep nrp operation vars ob s ev
      let r2 := pollRun nrp operation vars ob evs r1.1
      (r2.1, r1.2.1 ++ r2.2.1, r1.2.2.toList ++ r2.2.2)

/-- `doFetchWithPolling` (source lines 168 to 226): validate the interval,
then run the first tick synchronously; the resulting state is the poller
at the moment the handle is handed to the caller. -/
def doFetchWithPolling (nrp : Normalizer D N E V)
    (fetch : Option CacheConfig → SyncOrPromise E V (QueryPayload D))
    (operation : Operation) (vars : V) (pollInterval : Int) :
    Except (NetErr E V) (PollState N E V) :=
  if 0 < pollInterval then
    (pollTickStart nrp fetch operation vars).map (fun fut => ⟨false, false, some fut⟩)
  else
    .error (.invariant (invariantMessage
      "RelayNetwork: Expected pollInterval to be positive, got `%s`."
      [toString pollInterval]))

/-- Result of `requestStream`: delegation to the subscribe primitive, a
started poller, or a one-shot execution with its pending continuation.
In each case the caller also receives the disposable handle. -/
inductive StreamResult (D N E V : Type) where
  | subscribed
  | polling (s : PollState N E V)
  | oneShot (pending : Option (OneShotJob D E V))
deriving DecidableEq, Repr

/-- The wrapped `onNext` handed to the subscribe primitive (source lines
89 to 98): normalize, route a normalization failure to `onError`, and
otherwise forward the normalized payload to `onNext`. -/
def subscriptionOnNext (nrp : Normalizer D N E V) (operation : Operation) (vars : V)
    (payload : QueryPayload D) : List (CB N E V) :=
  match normalizePayload nrp operation vars payload with
  | .error err => [.error err]
  | .ok v => [.next (some v)]

/-- `requestStream` (source lines 74 to 159).  The second component of the
result is the list of observer callbacks fired synchronously, during the
call itself, before the caller receives the handle. -/
def requestStream (subscribe : Option Unit) (nrp : Normalizer D N E V)
    (fetch : Option CacheConfig → SyncOrPromise E V (QueryPayload D))
    (operation : Operation) (vars : V) (cacheConfig : Option CacheConfig) :
    Except (NetErr E V) (StreamResult D N E V × List (CB N E V)) :=
  if operation.query.operation = "subscription" then
    match subscribe with
    | none =>
        .error (.invariant
          "The default network layer does not support GraphQL Subscriptions. To use Subscriptions, provide a custom network layer.")
    | some _ => .ok (.subscribed, [])
  else
    match (cacheConfig.bind CacheConfig.poll) with
    | some pollInterval =>
        (doFetchWithPolling nrp fetch operation vars pollInterval).map
          (fun s => (.polling s, []))
    | none =>
        .ok (.oneShot (oneShotPending (fetch cacheConfig)), [])

/-- The callbacks fired synchronously during a `requestStream` call (none
when the call threw). -/
def streamSyncTrace :
    Except (NetErr E V) (StreamResult D N E V × List (CB N E V)) → List (CB N E V)
  | .ok (_, tr) => tr
  | .error _ => []

/-- The cache configuration claim C3 describes, stated from the words of
the claim for comparison with what the code passes: the original
configuration with its `force` field set to true and every other field
preserved. -/
def setForce (cacheConfig : Option CacheConfig) : CacheConfig :=
  match cacheConfig with
  | none => ⟨some true, none, none⟩
  | some c => ⟨some true, c.poll, c.liveConfigId⟩

/-- True when `requestResponse` returned a `data` envelope. -/
def isDataEnvelope : Except (NetErr E V) (SyncOrPromise E V N) → Bool
  | .ok (.data _) => true
  | _ => false

end Model

/-- The characters of `sub` occur consecutively inside `s`. -/
def StrContains (s sub : String) : Prop :=
  ∃ l r, l ++ sub.toList ++ r = s.toList

/-- A concrete normalizer used by concrete instances: normalization
succeeds and adds one to the raw data. -/
def nrp0 : Normalizer Nat Nat String Nat := fun _ d _ _ => Except.ok (d + 1)

/-- A concrete query operation. -/
def op0 : Operation := ⟨"ExampleQuery", ⟨"query"⟩⟩

/-- A concrete subscription operation. -/
def opSub : Operation := ⟨"ExampleSubscription", ⟨"subscription"⟩⟩

/-- An observer that never disposes from inside a callback. -/
def obQuiet : ObserverBehavior Nat String Nat :=
  ⟨fun _ => false, fun _ => false, false⟩

/-- An observer whose `onNext` calls `dispose()` on the handle from inside
the callback. -/
def obNextDisposes : ObserverBehavior Nat String Nat :=
  ⟨fun _ => true, fun _ => false, false⟩

/-- A fetch primitive answering a null data envelope exactly at the
configuration the poller passes, and an error envelope elsewhere. -/
def fetchSel : Option CacheConfig → SyncOrPromise String Nat (QueryPayload Nat) :=
  fun c => if c = some pollCacheConfig then .data none else .error (.ext "other")

/-- A fetch primitive answering a null data envelope at the configuration
the poller passes, and a non-null data envelope elsewhere. -/
def fetchSel2 : Option CacheConfig → SyncOrPromise String Nat (QueryPayload Nat) :=
  fun c => if c = some pollCacheConfig then .data none else .data (some ⟨some 3, none⟩)

/-- A fetch primitive that always answers an error envelope. -/
def fetchErr : Option CacheConfig → SyncOrPromise String Nat (QueryPayload Nat) :=
  fun _ => .error (.ext "other")

section Theorems

variable {D N E V : Type}

/-- Decomposition of the formatted missing-data message: the literal
prefix, then the operation name, then the literal middle, then the joined
error list message, then the literal tail. -/
theorem substPercentS_missingDataFormat (a b : String) :
    substPercentS missingDataFormat.toList [a, b] =
      "No data returned for operation `".toList ++
        (a.toList ++ ("`, got error(s):\n".toList ++
          (b.toList ++
            "\n\nSee the error `source` property for more information.".toList))) := rfl

/-- The synthesized missing-data message contains the joined server error
messages (or the sentinel) as a contiguous substring. -/
theorem strContains_missingData (operation : Operation) (errors : Option (List ErrObj)) :
    StrContains (missingDataError operation errors).message (errorListMessage errors) := by
  refine ⟨"No data returned for operation `".toList ++ operation.name.toList ++
      "`, got error(s):\n".toList,
    "\n\nSee the error `source` property for more information.".toList, ?_⟩
  have h : (missingDataError operation errors).message.toList =
      substPercentS missingDataFormat.toList
        [operation.name, errorListMessage errors] := rfl
  rw [h, substPercentS_missingDataFormat]
  simp [List.append_assoc]

/-- Once the poller has stopped (disposed, no timer pending, nothing in
flight) every further event is inert: no callback fires, no tick runs, no
exception escapes. -/
theorem pollRun_stopped (nrp : Normalizer D N E V) (operation : Operation) (vars : V)
    (ob : ObserverBehavior N E V) (evs : List (PollEvent D E V)) :
    pollRun nrp operation vars ob evs ⟨true, false, none⟩ =
      (⟨true, false, none⟩, [], []) := by
  induction evs with
  | nil => rfl
  | cons ev evs ih =>
      cases ev with
      | timerFire fetch => simp [pollRun, pollStep, ih]
      | settle => simp [pollRun, pollStep, ih]
      | disposeEvt => simp [pollRun, pollStep, disposePoll, ih]

/-- C1: the claim states that disposing a handle before a pending deferred
result settles guarantees zero observer callbacks afterwards, for both the
poller and the one-shot path.  The code violates it for the poller: the
success handler of a poll tick has no disposed check, so a success
settling after disposal is still forwarded to `onNext` and still
schedules the next tick (while the one-shot path does suppress delivery,
last conjunct). -/
theorem C1_poller_delivers_after_dispose :
    pollRun nrp0 op0 0 obQuiet [PollEvent.disposeEvt, PollEvent.settle]
        ⟨false, false, some (some (.ok (some 7)))⟩ =
      (⟨true, true, none⟩, [CB.next (some 7)], [])
    ∧ (pollRun nrp0 op0 0 obQuiet [PollEvent.disposeEvt, PollEvent.settle]
        ⟨false, false, some (some (.ok (some 7)))⟩).2.1 ≠ []
    ∧ (∀ job, oneShotDeliver nrp0 op0 0 obQuiet true job = (true, [])) := by
  refine ⟨by decide, by decide, ?_⟩
  intro job
  cases job with
  | none => rfl
  | some j => cases j <;> rfl

/-- C2 counterexample: the claim states that every `data` envelope yields
a `data` envelope of the normalized payload; but for a `data` envelope
carrying a payload with no `data` field, `request` raises the synthesized
missing-data error instead of returning a `data` envelope. -/
theorem C2_data_envelope_counterexample :
    isDataEnvelope (requestResponse nrp0 op0 0
        (SyncOrPromise.data (some ⟨none, none⟩))) = false
    ∧ requestResponse nrp0 op0 0 (SyncOrPromise.data (some ⟨none, none⟩)) =
        .error (.missingData (missingDataError op0 none) ⟨none, op0, 0⟩) :=
  ⟨rfl, rfl⟩

/-- C2 amended: `request` maps envelopes variant-preservingly where
defined: an `error` envelope is returned unchanged; a `promise` envelope
yields a `promise` envelope whose settlement is the original settlement
bound through the normalizer (so it resolves with the normalized payload
when the original resolves and the normalizer succeeds, and rejects when
the original rejects or the normalizer fails); a `data` envelope with a
null payload yields a `data` envelope of null; a `data` envelope with a
non-null payload yields a `data` envelope of the normalized payload when
normalization succeeds, and raises the normalization failure
synchronously when it fails. -/
theorem C2_request_variant_mapping (nrp : Normalizer D N E V) (operation : Operation)
    (vars : V) :
    (∀ e, requestResponse nrp operation vars (.error e) = .ok (.error e))
    ∧ (∀ p, requestResponse nrp operation vars (.promise p) =
        .ok (.promise (p.map (fun settled =>
          settled.bind (normalizePayload nrp operation vars)))))
    ∧ (∀ q, Except.bind (Except.ok q) (normalizePayload nrp operation vars) =
        normalizePayload nrp operation vars q)
    ∧ (∀ e, Except.bind (Except.error e : Except (NetErr E V) (QueryPayload D))
        (normalizePayload nrp operation vars) = Except.error e)
    ∧ requestResponse nrp operation vars (.data none) = .ok (.data none)
    ∧ (∀ q v, normalizePayload nrp operation vars q = .ok v →
        requestResponse nrp operation vars (.data (some q)) = .ok (.data (some v)))
    ∧ (∀ q e, normalizePayload nrp operation vars q = .error e →
        requestResponse nrp operation vars (.data (some q)) = .error e) := by
  refine ⟨fun e => rfl, fun p => rfl, fun q => rfl, fun e => rfl, rfl, ?_, ?_⟩
  · intro q v h
    simp [requestResponse, h]
  · intro q e h
    simp [requestResponse, h]

/-- C2 witness: a concrete successful normalization through the `data`
branch. -/
theorem C2_request_variant_mapping_witness :
    requestResponse nrp0 op0 0 (SyncOrPromise.data (some ⟨some 5, none⟩)) =
      .ok (.data (some 6)) :=
  (C2_request_variant_mapping nrp0 op0 0).2.2.2.2.2.1 ⟨some 5, none⟩ 6 rfl

/-- C3 counterexample: the claim states that a poll tick passes the
original cache configuration with `force` set to true and all other
fields preserved; but the configuration the tick passes is the bare
`force: true` literal, which differs from the claimed merge for an
original configuration carrying `poll: 1000`, and the tick observably
reads the fetch primitive at the bare literal, not at the merge: two
fetch primitives agreeing at the claimed merged configuration still give
different tick outcomes. -/
theorem C3_pollConfig_counterexample :
    pollCacheConfig ≠ setForce (some ⟨none, some 1000, none⟩)
    ∧ fetchSel (some (setForce (some ⟨none, some 1000, none⟩))) =
        fetchErr (some (setForce (some ⟨none, some 1000, none⟩)))
    ∧ pollTickStart nrp0 fetchSel op0 0 ≠ pollTickStart nrp0 fetchErr op0 0 := by
  refine ⟨by decide, by decide, by decide⟩

/-- C3 amended: every poll tick calls `request` with the cache
configuration consisting solely of `force: true` (the other fields of the
original configuration are dropped, not preserved); consequently the tick
depends on the fetch primitive only through its value at that
configuration. -/
theorem C3_poll_tick_force_only (nrp : Normalizer D N E V) (operation : Operation)
    (vars : V) (fetch g : Option CacheConfig → SyncOrPromise E V (QueryPayload D))
    (h : fetch (some pollCacheConfig) = g (some pollCacheConfig)) :
    pollCacheConfig = ⟨some true, none, none⟩
    ∧ pollCacheConfig.force = some true
    ∧ pollTickStart nrp fetch operation vars = pollTickStart nrp g operation vars
    ∧ (∀ ob s, pollStep nrp operation vars ob s (.timerFire fetch) =
        pollStep nrp operation vars ob s (.timerFire g))
    ∧ (∀ pollInterval, doFetchWithPolling nrp fetch operation vars pollInterval =
        doFetchWithPolling nrp g operation vars pollInterval) := by
  have hts : pollTickStart nrp fetch operation vars =
      pollTickStart (N := N) nrp g operation vars := by
    unfold pollTickStart request
    rw [h]
  refine ⟨rfl, rfl, hts, ?_, ?_⟩
  · intro ob s
    simp [pollStep, hts]
  · intro pollInterval
    simp [doFetchWithPolling, hts]

/-- C3 witness: two fetch primitives agreeing at the `force: true`
configuration give identical tick outcomes. -/
theorem C3_poll_tick_force_only_witness :
    pollTickStart nrp0 fetchSel op0 0 = pollTickStart nrp0 fetchSel2 op0 0 :=
  (C3_poll_tick_force_only nrp0 op0 0 fetchSel fetchSel2 (by decide)).2.2.1

/-- C4: a fetch result whose kind tag is none of the three defined ones
makes the one-shot `request` path raise the unsupported-kind invariant
violation; on the polling path the same invariant is raised inside
`request` during the tick: synchronously out of `doFetchWithPolling` for
the first tick, and as an exception escaping the timer callback for later
ticks.  Moreover `request` never returns an unknown-kind envelope, so the
silent default branch of the poll switch is unreachable. -/
theorem C4_unknown_kind_fails (nrp : Normalizer D N E V) (operation : Operation)
    (vars : V) (kind : String) (pollInterval : Int) (hpos : 0 < pollInterval)
    (ob : ObserverBehavior N E V) (s : PollState N E V)
    (hts : s.timeoutScheduled = true) :
    requestResponse nrp operation vars (.unknown kind) =
      .error (.invariant (invariantMessage
        "RelayNetwork: unsupported response kind `%s`" [kind]))
    ∧ doFetchWithPolling nrp (fun _ => .unknown kind) operation vars pollInterval =
      .error (.invariant (invariantMessage
        "RelayNetwork: unsupported response kind `%s`" [kind]))
    ∧ pollStep nrp operation vars ob s (.timerFire (fun _ => .unknown kind)) =
      (⟨s.isDisposed, false, none⟩, [],
        some (.invariant (invariantMessage
          "RelayNetwork: unsupported response kind `%s`" [kind])))
    ∧ (∀ resp r, requestResponse nrp operation vars resp = .ok r →
        ∀ k2, r ≠ SyncOrPromise.unknown k2) := by
  refine ⟨rfl, ?_, ?_, ?_⟩
  · unfold doFetchWithPolling
    rw [if_pos hpos]
    rfl
  · simp [pollStep, hts, pollTickStart, request, requestResponse, Except.map]
  · intro resp r h k2
    cases resp with
    | data d =>
        cases d with
        | none =>
            simp only [requestResponse, Except.ok.injEq] at h
            simp [← h]
        | some q =>
            cases hq : normalizePayload nrp operation vars q with
            | ok v =>
                simp only [requestResponse, hq, Except.ok.injEq] at h
                simp [← h]
            | error e => simp [requestResponse, hq] at h
    | error e =>
        simp only [requestResponse, Except.ok.injEq] at h
        simp [← h]
    | promise p =>
        simp only [requestResponse, Except.ok.injEq] at h
        simp [← h]
    | unknown k => simp [requestResponse] at h

/-- C4 witness: a concrete unknown kind on the polling path. -/
theorem C4_unknown_kind_fails_witness :
    doFetchWithPolling nrp0 (fun _ => SyncOrPromise.unknown "bogus") op0 0 1000 =
      .error (.invariant (invariantMessage
        "RelayNetwork: unsupported response kind `%s`" ["bogus"])) :=
  (C4_unknown_kind_fails nrp0 op0 0 "bogus" 1000 (by decide) obQuiet
    ⟨false, true, none⟩ rfl).2.1

/-- C5: when a poll tick settles with an error (either an `error` envelope
turned into an immediately rejected promise, or a rejected deferred
result, second and third conjuncts), `onError` fires exactly once with
that error, the handle ends disposed with nothing scheduled or in flight,
and every later event is inert: no further tick is ever started (first
conjunct, via the absorbing stopped state).  A successful settlement only
ever emits `onNext` (last conjunct), so no other event can contribute an
`onError`. -/
theorem C5_poll_error_terminates (nrp : Normalizer D N E V) (operation : Operation)
    (vars : V) (ob : ObserverBehavior N E V) (e : NetErr E V) (s : PollState N E V)
    (evs : List (PollEvent D E V)) (hd : s.isDisposed = false)
    (ht : s.timeoutScheduled = false) (hi : s.inflight = some (some (.error e))) :
    pollRun nrp operation vars ob (.settle :: evs) s =
      (⟨true, false, none⟩, [CB.error e], [])
    ∧ tickFuture (SyncOrPromise.error e : SyncOrPromise E V N) = some (.error e)
    ∧ tickFuture (SyncOrPromise.promise (some (.error e)) : SyncOrPromise E V N) =
        some (.error e)
    ∧ (∀ p s2, (pollOnSettle ob s2 (Except.ok p)).2 = [CB.next p]) := by
  obtain ⟨d, t, fl⟩ := s
  simp only at hd ht hi
  subst hd
  subst ht
  subst hi
  refine ⟨?_, rfl, rfl, fun p s2 => rfl⟩
  simp [pollRun, pollStep, pollOnSettle, disposePoll, pollRun_stopped]

/-- C5 witness: a tick rejected with a concrete error fires `onError`
once and leaves the poller stopped, even across further timer events. -/
theorem C5_poll_error_terminates_witness :
    pollRun nrp0 op0 0 obQuiet
        [PollEvent.settle, PollEvent.timerFire fetchErr, PollEvent.settle]
        ⟨false, false, some (some (.error (.ext "boom")))⟩ =
      (⟨true, false, none⟩, [CB.error (.ext "boom")], []) :=
  (C5_poll_error_terminates nrp0 op0 0 obQuiet (.ext "boom")
    ⟨false, false, some (some (.error (.ext "boom")))⟩
    [PollEvent.timerFire fetchErr, PollEvent.settle] rfl rfl rfl).1

/-- C6: for every raw payload whose `data` field is absent, normalization
raises the synthesized error, whose message contains the joined server
error messages (or the sentinel when the list is absent) and whose
attached `source` carries the raw errors, the operation and the
variables; `request` on a `data` envelope carrying such a payload fails
with that same error. -/
theorem C6_missing_data_error (nrp : Normalizer D N E V) (operation : Operation)
    (vars : V) (q : QueryPayload D) (h : q.data = none) :
    normalizePayload nrp operation vars q =
      .error (.missingData (missingDataError operation q.errors)
        ⟨q.errors, operation, vars⟩)
    ∧ requestResponse nrp operation vars (.data (some q)) =
      .error (.missingData (missingDataError operation q.errors)
        ⟨q.errors, operation, vars⟩)
    ∧ StrContains (missingDataError operation q.errors).message
        (errorListMessage q.errors) := by
  obtain ⟨d, errs⟩ := q
  cases d with
  | none => exact ⟨rfl, rfl, strContains_missingData operation errs⟩
  | some x => simp at h

/-- C6 witness: a payload with no data and a single server error with
message boom makes `request` fail with the synthesized error, whose
message contains boom and whose source carries the errors, the operation
and the variables. -/
theorem C6_missing_data_error_witness :
    requestResponse nrp0 op0 0
        (SyncOrPromise.data (some ⟨none, some [⟨"boom"⟩]⟩)) =
      .error (.missingData (missingDataError op0 (some [⟨"boom"⟩]))
        ⟨some [⟨"boom"⟩], op0, 0⟩)
    ∧ StrContains (missingDataError op0 (some [⟨"boom"⟩])).message "boom" := by
  have h := C6_missing_data_error nrp0 op0 0 ⟨none, some [⟨"boom"⟩]⟩ rfl
  have e1 : errorListMessage (some [⟨"boom"⟩]) = "boom" := by decide
  have h2 := h.2.2
  rw [e1] at h2
  exact ⟨h.2.1, h2⟩

/-- C7: for a subscription-kind operation, `requestStream` with no
subscribe primitive configured fails immediately with the configuration
invariant, and with one configured it delegates to it; in both cases the
outcome is independent of the fetch primitive, which is never consulted. -/
theorem C7_subscription_requires_subscribe (nrp : Normalizer D N E V)
    (fetch g : Option CacheConfig → SyncOrPromise E V (QueryPayload D))
    (operation : Operation) (vars : V) (cacheConfig : Option CacheConfig)
    (h : operation.query.operation = "subscription") :
    requestStream none nrp fetch operation vars cacheConfig =
      .error (.invariant
        "The default network layer does not support GraphQL Subscriptions. To use Subscriptions, provide a custom network layer.")
    ∧ (∀ u : Unit, requestStream (some u) nrp fetch operation vars cacheConfig =
        .ok (.subscribed, []))
    ∧ (∀ subscribe, requestStream subscribe nrp fetch operation vars cacheConfig =
        requestStream subscribe nrp g operation vars cacheConfig) := by
  refine ⟨?_, ?_, ?_⟩
  · simp [requestStream, h]
  · intro u
    simp [requestStream, h]
  · intro subscribe
    cases subscribe <;> simp [requestStream, h]

/-- C7 witness: a concrete subscription-kind operation. -/
theorem C7_subscription_requires_subscribe_witness :
    requestStream none nrp0 fetchErr opSub 0 none =
      .error (.invariant
        "The default network layer does not support GraphQL Subscriptions. To use Subscriptions, provide a custom network layer.")
    ∧ requestStream (some ()) nrp0 fetchErr opSub 0 none = .ok (.subscribed, []) := by
  have h := C7_subscription_requires_subscribe nrp0 fetchErr fetchErr opSub 0 none rfl
  exact ⟨h.1, h.2.1 ()⟩

/-- C8 counterexample: the claim states that a disposal performed from
inside the observer's own `onNext` suppresses the rest of the delivery;
but the disposed flag is read once, before the first callback, so
`onCompleted` still fires after an `onNext` that disposed the handle. -/
theorem C8_onNext_dispose_counterexample :
    onRequestSuccess nrp0 op0 0 obNextDisposes false (some ⟨some 1, none⟩) =
      (true, [CB.next (some 2), CB.completed])
    ∧ CB.completed ∈
        (onRequestSuccess nrp0 op0 0 obNextDisposes false (some ⟨some 1, none⟩)).2
    ∧ obNextDisposes.nextDisposes (some 2) = true := by
  refine ⟨rfl, by decide, rfl⟩

/-- C8 amended: for the one-shot stream path, nothing fires when the
handle was disposed before the settlement is delivered (first conjunct);
every delivery trace is empty, a single `onError`, or `onNext` followed
by `onCompleted` — so `onNext` always precedes `onCompleted` and neither
fires after an `onError` (second conjunct); on a successful result the
delivery is exactly `onNext` then `onCompleted`, and `onCompleted` fires
even when the observer's own `onNext` disposed the handle, because the
flag is not re-read between the two callbacks (third conjunct). -/
theorem C8_one_shot_ordering (nrp : Normalizer D N E V) (operation : Operation)
    (vars : V) (ob : ObserverBehavior N E V) :
    (∀ job, oneShotDeliver nrp operation vars ob true job = (true, []))
    ∧ (∀ dis job, (oneShotDeliver nrp operation vars ob dis job).2 = []
        ∨ (∃ e, (oneShotDeliver nrp operation vars ob dis job).2 = [CB.error e])
        ∨ (∃ v, (oneShotDeliver nrp operation vars ob dis job).2 =
            [CB.next (some v), CB.completed]))
    ∧ (∀ payload v, normalizePayloadNullable nrp operation vars payload = .ok v →
        onRequestSuccess nrp operation vars ob false payload =
          (ob.nextDisposes (some v) || ob.completedDisposes,
            [CB.next (some v), CB.completed])) := by
  refine ⟨?_, ?_, ?_⟩
  · intro job
    cases job with
    | none => rfl
    | some j => cases j <;> rfl
  · intro dis job
    cases job with
    | none => exact Or.inl rfl
    | some j =>
        cases j with
        | success p =>
            cases dis with
            | true => exact Or.inl rfl
            | false =>
                cases hn : normalizePayloadNullable nrp operation vars p with
                | ok v =>
                    refine Or.inr (Or.inr ⟨v, ?_⟩)
                    simp [oneShotDeliver, onRequestSuccess, hn]
                | error e =>
                    refine Or.inr (Or.inl ⟨e, ?_⟩)
                    simp [oneShotDeliver, onRequestSuccess, hn]
        | failure e =>
            cases dis with
            | true => exact Or.inl rfl
            | false => exact Or.inr (Or.inl ⟨e, rfl⟩)
  · intro payload v h
    simp [onRequestSuccess, h]

/-- C8 witness: a concrete successful one-shot delivery. -/
theorem C8_one_shot_ordering_witness :
    onRequestSuccess nrp0 op0 0 obQuiet false (some ⟨some 1, none⟩) =
      (false, [CB.next (some 2), CB.completed]) := by
  have h := (C8_one_shot_ordering nrp0 op0 0 obQuiet).2.2 (some ⟨some 1, none⟩) 2 rfl
  simpa using h

/-- C9: the claim states that a synchronous result is wrapped in a
resolved or rejected promise and delivered in a later asynchronous turn.
No callback indeed ever fires during the `requestStream` call itself
(fourth conjunct, over every subscribe primitive, fetch primitive and
cache configuration), but for a synchronous `error` envelope the rejected
promise has its handler attached in the fulfillment slot
(`Promise.reject(e).then(onRequestError)`), so no continuation is pending
(first conjunct) and the error is never delivered in any turn (second
conjunct), while the caller still receives the handle (third conjunct). -/
theorem C9_sync_error_never_delivered :
    oneShotPending
        (SyncOrPromise.error (.ext "boom") : SyncOrPromise String Nat (QueryPayload Nat)) =
      none
    ∧ oneShotDeliver nrp0 op0 0 obQuiet false
        (oneShotPending (SyncOrPromise.error (.ext "boom"))) = (false, [])
    ∧ requestStream none nrp0 (fun _ => SyncOrPromise.error (.ext "boom")) op0 0 none =
        .ok (.oneShot none, [])
    ∧ (∀ subscribe f c, streamSyncTrace (requestStream subscribe nrp0 f op0 0 c) = [])
    ∧ streamSyncTrace
        (requestStream none nrp0 (fun _ => SyncOrPromise.error (.ext "boom")) op0 0 none) =
      [] := by
  refine ⟨rfl, rfl, rfl, ?_, rfl⟩
  intro subscribe f c
  unfold requestStream
  rw [if_neg (by decide : ¬ (op0.query.operation = "subscription"))]
  cases hc : Option.bind c CacheConfig.poll with
  | none => rfl
  | some i =>
      cases h2 : doFetchWithPolling nrp0 f op0 0 i <;>
        simp [streamSyncTrace, h2, Except.map]

/-- C10: a `data` envelope whose carried payload is null yields a `data`
envelope with null data, independently of the normalizer, which is not
consulted; the synthesized missing-data error is raised exactly when the
payload object is present but its `data` field is absent. -/
theorem C10_null_data_envelope (nrp nrp2 : Normalizer D N E V) (operation : Operation)
    (vars : V) (q : QueryPayload D) (h : q.data = none) :
    requestResponse nrp operation vars (.data none) = .ok (.data none)
    ∧ requestResponse nrp operation vars (.data none) =
        requestResponse nrp2 operation vars (.data none)
    ∧ requestResponse nrp operation vars (.data (some q)) =
        .error (.missingData (missingDataError operation q.errors)
          ⟨q.errors, operation, vars⟩) := by
  obtain ⟨d, errs⟩ := q
  cases d with
  | none => exact ⟨rfl, rfl, rfl⟩
  | some x => simp at h

/-- C10 witness: concrete null payload and concrete dataless payload. -/
theorem C10_null_data_envelope_witness :
    requestResponse nrp0 op0 0 (SyncOrPromise.data none) = .ok (.data none)
    ∧ requestResponse nrp0 op0 0 (SyncOrPromise.data (some ⟨none, none⟩)) =
        .error (.missingData (missingDataError op0 none) ⟨none, op0, 0⟩) := by
  have h := C10_null_data_envelope nrp0 nrp0 op0 0 ⟨none, none⟩ rfl
  exact ⟨h.1, h.2.2⟩

end Theorems

end RelayNet
